import Mathlib

/-!
Shallow embedding of `src/samgeo/text_sam.py` (the LangSAM orchestrator).

The repository's own code is orchestration glue over two opaque external
models (a GroundingDINO detector and a SAM segmenter), plus raster I/O and
presentation.  The external models, the filesystem, the URL downloader and
the raster reader are modelled as a record of oracles (`Oracles`); the
orchestration logic of `LangSAM.predict`, `LangSAM.show_anns` and the CLI
`main` is translated from the source.  Machine-integer behaviour of the
numpy mask accumulator (`dtype=np.uint8` by default) is made explicit with
a modulus parameter `M` (256 for the default dtype).  Side effects are
recorded as an event trace; Python exceptions become `Except` errors, and
mutations of the `self.*` fields become explicit state passing.
-/

/-- A decoded image: rows of pixels, each pixel a list of channel values
(rasterio output after the `(1, 2, 0)` transpose: row, column, band). -/
abbrev Img := List (List (List Nat))

/-- A per-detection segmentation mask: rows by columns of raw values; the
code only ever consults `mask > 0`. -/
abbrev Mask := List (List Nat)

/-- A bounding box `(x0, y0, x1, y1)` (or `(cx, cy, w, h)` before the
`box_cxcywh_to_xyxy` conversion) with exact rational coordinates. -/
abbrev Box := ℚ × ℚ × ℚ × ℚ

/-- A single-channel raster of pixel values (the mask overlay). -/
abbrev Overlay := List (List Nat)

/-- One raw detector output: a box in normalized center-size form, a
confidence logit, and the matched phrase. -/
abbrev Detection := Box × ℚ × String

/-- A georeferenced raster as produced by `rasterio.open(...).read()` after
the transpose, together with its affine transform and CRS. -/
structure Raster where
  data : Img
  transform : Int × Int × Int × Int × Int × Int
  crs : Nat
deriving DecidableEq

/-- The opaque external services of the program: filesystem existence
checks, URL download, georeferenced raster reading, the GroundingDINO
detector (an ordered sequence of (box, logit, phrase) detections as in the
spec's data model) and the SAM segmenter (one mask per prompted box, the
`multimask_output=False` contract of `predict_torch`). -/
structure Oracles where
  fileExists : String → Bool
  download : String → String
  readRaster : String → Raster
  dino : Img → String → ℚ → ℚ → List Detection
  sam : Img → Box → Mask

/-- The `image` argument of `LangSAM.predict`: either a string (local path
or URL) or an in-memory image object. -/
inductive ImageInput
  | path (s : String)
  | mem (img : Img)

/-- The mutable session fields of the `LangSAM` object (lines 78-84 of the
source), all `None` at construction. -/
structure LangSAMState where
  source : Option String
  image : Option Img
  masks : Option (List Mask)
  boxes : Option (List Box)
  phrases : Option (List String)
  logits : Option (List ℚ)
  prediction : Option Overlay
deriving DecidableEq

/-- The state of a freshly constructed `LangSAM` object. -/
def initState : LangSAMState :=
  { source := none, image := none, masks := none, boxes := none,
    phrases := none, logits := none, prediction := none }

/-- Observable side effects of a run: model invocations, `print` output,
raster writes (`array_to_image` / `rasterio` write), matplotlib rendering,
box drawing and figure export. -/
inductive PEvent
  | dinoCall
  | samCall
  | msg (s : String)
  | writeRaster (p : String)
  | render
  | boxDrawn
  | saveFig (p : String)
deriving DecidableEq

/-- Python exceptions raised by the orchestration code itself. -/
inductive PredictErr
  | invalidPath (p : String)
  | unboundLocal (v : String)
deriving DecidableEq

/-- The value of `Image.fromarray(image_np[:, :, :3])`: the image with each
pixel restricted to its first three channels. -/
def firstThree (data : Img) : Img :=
  data.map (fun row => row.map (fun px => px.take 3))

/-- Python's `image.startswith("http")`: the first four characters of the
string are h, t, t, p. -/
def startsWithHttp (s : String) : Bool :=
  s.data.take 4 == ['h', 't', 't', 'p']

/-- Lines 146-147 of the source: a string starting with http is replaced by
the local path the download produces. -/
def resolvePath (o : Oracles) (s : String) : String :=
  if startsWithHttp s then o.download s else s

/-- Image width as used by `image.size` (PIL gives (width, height)): the
length of the first pixel row. -/
def imgW (img : Img) : Nat := (img.getD 0 []).length

/-- Image height as used by `image.size`: the number of pixel rows. -/
def imgH (img : Img) : Nat := img.length

/-- `box_ops.box_cxcywh_to_xyxy`: center-size to corner form. -/
def box_cxcywh_to_xyxy (b : Box) : Box :=
  (b.1 - b.2.2.1 / 2, b.2.1 - b.2.2.2 / 2, b.1 + b.2.2.1 / 2, b.2.1 + b.2.2.2 / 2)

/-- Elementwise multiplication by `torch.Tensor([W, H, W, H])`. -/
def scaleBox (b : Box) (W H : ℚ) : Box :=
  (b.1 * W, b.2.1 * H, b.2.2.1 * W, b.2.2.2 * H)

/-- `LangSAM.predict_dino` (lines 102-115): invoke the detector, then
convert its boxes from normalized center-size form to corner form scaled to
the original image's pixel size.  Returns (boxes, logits, phrases). -/
def predict_dino (o : Oracles) (image : Img) (text_prompt : String)
    (box_threshold text_threshold : ℚ) : List Box × List ℚ × List String :=
  let dets := o.dino image text_prompt box_threshold text_threshold
  let W : ℚ := (imgW image : ℚ)
  let H : ℚ := (imgH image : ℚ)
  (dets.map (fun d => scaleBox (box_cxcywh_to_xyxy d.1) W H),
   dets.map (fun d => d.2.1),
   dets.map (fun d => d.2.2))

/-- `LangSAM.predict_sam` (lines 117-129): set the working image and prompt
the segmenter with every box in one batch; `multimask_output=False` plus
the `squeeze(1)` yields exactly one mask per box, modelled as a map of the
per-box segmenter oracle. -/
def predict_sam (o : Oracles) (image : Img) (boxes : List Box) : List Mask :=
  boxes.map (o.sam image)

/-- The value of one cell of a 2D array, 0 outside its bounds. -/
def cell (g : List (List Nat)) (r c : Nat) : Nat :=
  (g.getD r []).getD c 0

/-- The per-pixel value of the mask accumulator of lines 178-184: starting
from 0, for each detection index i add `((mask > 0) * (i + 1)).astype(dtype)`
with dtype arithmetic wrapping modulo `M` (256 for the default `np.uint8`). -/
def accPixel (M : Nat) (masks : List Mask) (r c : Nat) : Nat :=
  masks.enum.foldl
    (fun a im => (a + (if 0 < cell im.2 r c then (im.1 + 1) % M else 0)) % M) 0

/-- The accumulator array `mask_overlay` of lines 178-184:
`np.zeros_like(image_np[..., 0], dtype=dtype)` (shape h by w) with every
mask added in. -/
def maskOverlayRaw (M h w : Nat) (masks : List Mask) : Overlay :=
  (List.range h).map (fun r => (List.range w).map (fun c => accPixel M masks r c))

/-- Line 187: `mask_overlay = (mask_overlay > 0) * mask_multiplier`. -/
def binarizeGrid (mult : Nat) (ov : Overlay) : Overlay :=
  ov.map (fun row => row.map (fun v => if 0 < v then mult else 0))

/-- The quadruple `(masks, boxes, phrases, logits)` returned by `predict`
when `return_results` is set. -/
abbrev PredictResults := List Mask × List Box × List String × List ℚ

/-- Outcome of a `predict` call: final session state, event trace, and the
Python return value (`none` models Python's `None`) or raised exception. -/
abbrev PredictRet := LangSAMState × List PEvent × Except PredictErr (Option PredictResults)

/-- The body of `LangSAM.predict` from line 163 on (after the input branch):
`image_np` is `some` raster exactly when the string branch bound it, mirroring
that the local variable is otherwise unbound at line 178. -/
def predictCore (o : Oracles) (st1 : LangSAMState) (image_np : Option Raster)
    (image_pil : Img) (text_prompt : String) (box_threshold text_threshold : ℚ)
    (output : Option String) (mask_multiplier M : Nat) (return_results : Bool) :
    PredictRet :=
  let st2 := { st1 with image := some image_pil }
  let dlp := predict_dino o image_pil text_prompt box_threshold text_threshold
  let boxes := dlp.1
  let logits := dlp.2.1
  let phrases := dlp.2.2
  let masks := if 0 < boxes.length then predict_sam o image_pil boxes else []
  let ev := if 0 < boxes.length then [PEvent.dinoCall, PEvent.samCall] else [PEvent.dinoCall]
  if boxes.length = 0 then
    (st2, ev ++ [PEvent.msg ("No objects found in the image.")], Except.ok none)
  else
    match image_np with
    | none => (st2, ev, Except.error (PredictErr.unboundLocal ("image_np")))
    | some raster =>
        let h := imgH raster.data
        let w := imgW raster.data
        let overlay := binarizeGrid mask_multiplier (maskOverlayRaw M h w masks)
        let ev2 := match output with
          | some p => ev ++ [PEvent.writeRaster p]
          | none => ev
        let st3 := { st2 with
          masks := some masks
          boxes := some boxes
          phrases := some phrases
          logits := some logits
          prediction := some overlay }
        (st3, ev2, Except.ok (if return_results then some (masks, boxes, phrases, logits) else none))

/-- `LangSAM.predict` (lines 131-200).  A string input is resolved (URL
download), checked for existence (raising `ValueError` otherwise, before
any field assignment), loaded, and `self.source` is set; an in-memory input
skips all of that (leaving the local `image_np` unbound). -/
def predict (o : Oracles) (st : LangSAMState) (image : ImageInput)
    (text_prompt : String) (box_threshold text_threshold : ℚ)
    (output : Option String) (mask_multiplier M : Nat) (return_results : Bool) :
    PredictRet :=
  match image with
  | .path s0 =>
      let s := resolvePath o s0
      if o.fileExists s then
        predictCore o { st with source := some s } (some (o.readRaster s))
          (firstThree (o.readRaster s).data) text_prompt box_threshold text_threshold
          output mask_multiplier M return_results
      else
        (st, [], Except.error (PredictErr.invalidPath s))
  | .mem img =>
      predictCore o st none img text_prompt box_threshold text_threshold
        output mask_multiplier M return_results

/-- The image `predict` would run the models on, when input loading
succeeds: the first three channels of the raster for a path input, the
image itself for an in-memory input. -/
def loadedPil (o : Oracles) (image : ImageInput) : Option Img :=
  match image with
  | .path s =>
      if o.fileExists (resolvePath o s) then
        some (firstThree (o.readRaster (resolvePath o s)).data)
      else none
  | .mem img => some img

/-- The raster `predict` binds to `image_np`, when the input is a loadable
path (`none` for in-memory inputs, where the local stays unbound). -/
def loadedRaster (o : Oracles) (image : ImageInput) : Option Raster :=
  match image with
  | .path s =>
      if o.fileExists (resolvePath o s) then some (o.readRaster (resolvePath o s))
      else none
  | .mem _ => none

/-- `LangSAM.show_anns` (lines 202-271), reduced to its observable effects:
the two guard clauses, the rendering calls, per-box rectangle drawing when
`add_boxes`, and the optional figure export.  Purely presentational
arguments (figsize, cmap, alpha, colors, title, blend) are dropped as they
do not change which effects occur. -/
def show_anns (st : LangSAMState) (add_boxes : Bool) (output : Option String) :
    List PEvent :=
  match st.prediction with
  | none => [PEvent.msg ("Please run predict() first.")]
  | some anns =>
      if anns.length = 0 then [PEvent.msg ("No objects found in the image.")]
      else
        let ev := [PEvent.render]
        let ev := if add_boxes then ev ++ (st.boxes.getD []).map (fun _ => PEvent.boxDrawn) else ev
        let ev := ev ++ [PEvent.render]
        match output with
        | some p => ev ++ [PEvent.saveFig p]
        | none => ev

/-- Errors raised by the CLI `main` itself, beyond those propagated from
`predict`: the tuple unpack of `predict`'s `None` return at line 300. -/
inductive MainErr
  | fromPredict (e : PredictErr)
  | unpackNone
deriving DecidableEq

/-- The `mask.tif` raster `main` would write: the binarized overlay with
the CRS and transform captured from the input raster. -/
structure WrittenTif where
  data : Overlay
  crs : Nat
  transform : Int × Int × Int × Int × Int × Int
deriving DecidableEq

/-- The per-pixel accumulator of `main` (lines 308-317), held in `np.int64`
so no wrap occurs. -/
def mainAccPixel (masks : List Mask) (r c : Nat) : Nat :=
  masks.enum.foldl (fun a im => a + (if 0 < cell im.2 r c then im.1 + 1 else 0)) 0

/-- The CLI entry point `main` (lines 274-335): read the input raster,
build the 3-channel image, construct the model, call
`model.predict(image_pil, prompt, box_threshold, text_threshold)` (an
in-memory image, with the default `return_results=False`) and unpack its
return into `masks, boxes, phrases, logits`; then rebuild the overlay in
int64, binarize with 255, and write `mask.tif` with the input's CRS and
transform. -/
def mainRun (o : Oracles) (imagePath text_prompt : String)
    (box_threshold text_threshold : ℚ) :
    List PEvent × Except MainErr (Option WrittenTif) :=
  let raster := o.readRaster imagePath
  let image_pil := firstThree raster.data
  let r := predict o initState (ImageInput.mem image_pil) text_prompt
    box_threshold text_threshold none 255 256 false
  match r.2.2 with
  | Except.error e => (r.2.1, Except.error (MainErr.fromPredict e))
  | Except.ok none => (r.2.1, Except.error MainErr.unpackNone)
  | Except.ok (some res) =>
      let masks := res.1
      let boxes := res.2.1
      if boxes.length = 0 then
        (r.2.1 ++ [PEvent.msg ("No objects found in the image.")],
         Except.error (MainErr.fromPredict (PredictErr.unboundLocal ("mask_overlay"))))
      else
        let h := imgH raster.data
        let w := imgW raster.data
        let ov := (List.range h).map (fun rr => (List.range w).map (fun cc =>
          if 0 < mainAccPixel masks rr cc then 255 else 0))
        (r.2.1 ++ [PEvent.writeRaster ("mask.tif")],
         Except.ok (some { data := ov, crs := raster.crs, transform := raster.transform }))

/-- A one-pixel, three-channel georeferenced test raster. -/
def testRaster : Raster :=
  { data := [[[1, 1, 1]]], transform := (1, 0, 0, 0, 1, 0), crs := 4326 }

/-- Concrete oracles for witnesses: every path exists, reading yields
`testRaster`, the detector finds one box for the prompt cat and nothing
otherwise, and the segmenter always returns the full one-pixel mask. -/
def testOracles : Oracles :=
  { fileExists := fun _ => true
    download := fun s => s
    readRaster := fun _ => testRaster
    dino := fun _ text_prompt _ _ =>
      if text_prompt = "cat" then [((0, 0, 0, 0), 1, "cat")] else []
    sam := fun _ _ => [[1]] }

/-- Oracles over an empty filesystem: no path exists. -/
def noFsOracles : Oracles :=
  { testOracles with fileExists := fun _ => false }

/-- On a detector run with zero detections, `predictCore` prints the
message and returns `None` having touched only the `image` field. -/
theorem predictCore_zero (o : Oracles) (st1 : LangSAMState) (inp : Option Raster)
    (pil : Img) (p : String) (bt tt : ℚ) (output : Option String)
    (mult M : Nat) (rr : Bool)
    (hd : o.dino pil p bt tt = []) :
    predictCore o st1 inp pil p bt tt output mult M rr =
      ({ st1 with image := some pil },
       [PEvent.dinoCall, PEvent.msg ("No objects found in the image.")],
       Except.ok none) := by
  simp [predictCore, predict_dino, hd]

/-- With at least one detection but no bound `image_np` (in-memory input),
`predictCore` raises the unbound-local error after both model calls. -/
theorem predictCore_none_pos (o : Oracles) (st1 : LangSAMState)
    (pil : Img) (p : String) (bt tt : ℚ) (output : Option String)
    (mult M : Nat) (rr : Bool)
    (hd : o.dino pil p bt tt ≠ []) :
    predictCore o st1 none pil p bt tt output mult M rr =
      ({ st1 with image := some pil },
       [PEvent.dinoCall, PEvent.samCall],
       Except.error (PredictErr.unboundLocal ("image_np"))) := by
  have hlen : 0 < ((predict_dino o pil p bt tt).1).length := by
    simp [predict_dino]
    exact List.length_pos.mpr hd
  simp [predictCore, hlen, Nat.pos_iff_ne_zero.mp hlen]

/-- With at least one detection and a bound `image_np`, `predictCore`
completes: it runs the segmenter, builds the binarized overlay, optionally
writes it, overwrites all result fields, and returns the quadruple iff
`return_results`. -/
theorem predictCore_pos (o : Oracles) (st1 : LangSAMState) (raster : Raster)
    (pil : Img) (p : String) (bt tt : ℚ) (output : Option String)
    (mult M : Nat) (rr : Bool)
    (hd : o.dino pil p bt tt ≠ []) :
    predictCore o st1 (some raster) pil p bt tt output mult M rr =
      ({ st1 with
          image := some pil
          masks := some (predict_sam o pil (predict_dino o pil p bt tt).1)
          boxes := some (predict_dino o pil p bt tt).1
          phrases := some (predict_dino o pil p bt tt).2.2
          logits := some (predict_dino o pil p bt tt).2.1
          prediction := some (binarizeGrid mult (maskOverlayRaw M
            (imgH raster.data) (imgW raster.data)
            (predict_sam o pil (predict_dino o pil p bt tt).1))) },
       (match output with
        | some q => [PEvent.dinoCall, PEvent.samCall, PEvent.writeRaster q]
        | none => [PEvent.dinoCall, PEvent.samCall]),
       Except.ok (if rr then
          some (predict_sam o pil (predict_dino o pil p bt tt).1,
                (predict_dino o pil p bt tt).1,
                (predict_dino o pil p bt tt).2.2,
                (predict_dino o pil p bt tt).2.1)
        else none)) := by
  have hlen : 0 < ((predict_dino o pil p bt tt).1).length := by
    simp [predict_dino]
    exact List.length_pos.mpr hd
  simp only [predictCore, hlen, if_pos, Nat.pos_iff_ne_zero.mp hlen, if_neg]
  cases output <;> rfl

/-- The r-th entry of a map over `List.range`, inside bounds. -/
theorem getD_map_range {α : Type} (f : Nat → α) (h r : Nat) (d : α) (hr : r < h) :
    ((List.range h).map f).getD r d = f r := by
  rw [List.getD_eq_getElem _ _ (by simpa using hr)]
  rw [List.getElem_map, List.getElem_range]

/-- Cell values of the binarized overlay, inside bounds: the binarization
of the accumulator cell. -/
theorem cell_overlay (M mult h w : Nat) (ms : List Mask) (r c : Nat)
    (hr : r < h) (hc : c < w) :
    cell (binarizeGrid mult (maskOverlayRaw M h w ms)) r c =
      if 0 < accPixel M ms r c then mult else 0 := by
  unfold cell binarizeGrid maskOverlayRaw
  rw [List.map_map]
  rw [getD_map_range _ _ _ _ hr]
  simp only [Function.comp]
  rw [List.map_map]
  rw [getD_map_range _ _ _ _ hc]
  rfl

/-- C1: for every image input and every prompt for which the detector
returns zero boxes, predict() returns normally with Python None (an empty
result, not an error), prints the user-facing message, and leaves
self.masks, self.boxes, self.phrases, self.logits and self.prediction
unassigned (each keeps its prior value). -/
theorem c1_predict_zero_detections (o : Oracles) (st : LangSAMState)
    (image : ImageInput) (p : String) (bt tt : ℚ) (output : Option String)
    (mult M : Nat) (rr : Bool) (pil : Img)
    (hpil : loadedPil o image = some pil)
    (hdino : o.dino pil p bt tt = []) :
    (predict o st image p bt tt output mult M rr).2.2 = Except.ok none ∧
    PEvent.msg ("No objects found in the image.") ∈
      (predict o st image p bt tt output mult M rr).2.1 ∧
    (predict o st image p bt tt output mult M rr).1.masks = st.masks ∧
    (predict o st image p bt tt output mult M rr).1.boxes = st.boxes ∧
    (predict o st image p bt tt output mult M rr).1.phrases = st.phrases ∧
    (predict o st image p bt tt output mult M rr).1.logits = st.logits ∧
    (predict o st image p bt tt output mult M rr).1.prediction = st.prediction := by
  cases image with
  | mem img =>
      simp only [loadedPil, Option.some.injEq] at hpil
      subst hpil
      simp only [predict]
      rw [predictCore_zero _ _ _ _ _ _ _ _ _ _ _ hdino]
      simp
  | path s =>
      by_cases hfe : o.fileExists (resolvePath o s)
      · simp only [loadedPil, hfe, if_true, Option.some.injEq] at hpil
        subst hpil
        simp only [predict, hfe, if_true]
        rw [predictCore_zero _ _ _ _ _ _ _ _ _ _ _ hdino]
        simp
      · simp [loadedPil, hfe] at hpil

/-- Witness for C1 at a concrete input: the test oracles find nothing for
the prompt dog on the one-pixel image. -/
theorem c1_predict_zero_detections_witness :
    loadedPil testOracles (ImageInput.mem [[[1, 1, 1]]]) = some [[[1, 1, 1]]] ∧
    testOracles.dino [[[1, 1, 1]]] ("dog") (1/2) (1/2) = [] ∧
    ((predict testOracles initState (ImageInput.mem [[[1, 1, 1]]]) ("dog")
        (1/2) (1/2) none 255 256 false).2.2 = Except.ok none ∧
     PEvent.msg ("No objects found in the image.") ∈
       (predict testOracles initState (ImageInput.mem [[[1, 1, 1]]]) ("dog")
         (1/2) (1/2) none 255 256 false).2.1 ∧
     (predict testOracles initState (ImageInput.mem [[[1, 1, 1]]]) ("dog")
        (1/2) (1/2) none 255 256 false).1.masks = initState.masks ∧
     (predict testOracles initState (ImageInput.mem [[[1, 1, 1]]]) ("dog")
        (1/2) (1/2) none 255 256 false).1.boxes = initState.boxes ∧
     (predict testOracles initState (ImageInput.mem [[[1, 1, 1]]]) ("dog")
        (1/2) (1/2) none 255 256 false).1.phrases = initState.phrases ∧
     (predict testOracles initState (ImageInput.mem [[[1, 1, 1]]]) ("dog")
        (1/2) (1/2) none 255 256 false).1.logits = initState.logits ∧
     (predict testOracles initState (ImageInput.mem [[[1, 1, 1]]]) ("dog")
        (1/2) (1/2) none 255 256 false).1.prediction = initState.prediction) :=
  ⟨by rfl, by decide,
   c1_predict_zero_detections testOracles initState (ImageInput.mem [[[1, 1, 1]]])
     ("dog") (1/2) (1/2) none 255 256 false [[[1, 1, 1]]] (by rfl) (by decide)⟩

/-- C4: predict() accepts an in-memory image, but when at least one
detection is found it raises (the local image_np is only bound in the
string branch yet is read when the overlay is created), instead of
completing and populating the session fields. -/
theorem c4_mem_image_unbound_local (o : Oracles) (st : LangSAMState)
    (img : Img) (p : String) (bt tt : ℚ) (output : Option String)
    (mult M : Nat) (rr : Bool)
    (hne : o.dino img p bt tt ≠ []) :
    (predict o st (ImageInput.mem img) p bt tt output mult M rr).2.2 =
      Except.error (PredictErr.unboundLocal ("image_np")) := by
  simp only [predict]
  rw [predictCore_none_pos _ _ _ _ _ _ _ _ _ _ hne]

/-- Witness for C4: one detection for the prompt cat on the one-pixel
in-memory image makes predict() raise the unbound-local error. -/
theorem c4_mem_image_unbound_local_witness :
    testOracles.dino [[[1, 1, 1]]] ("cat") (1/2) (1/2) ≠ [] ∧
    (predict testOracles initState (ImageInput.mem [[[1, 1, 1]]]) ("cat")
        (1/2) (1/2) none 255 256 false).2.2 =
      Except.error (PredictErr.unboundLocal ("image_np")) :=
  ⟨by decide,
   c4_mem_image_unbound_local testOracles initState [[[1, 1, 1]]] ("cat")
     (1/2) (1/2) none 255 256 false (by decide)⟩

/-- C8: for every string image argument that (after URL resolution) names a
nonexistent path, predict() raises the input-validation error with the
session state untouched and with neither the detector nor the segmenter
invoked (the event trace is empty). -/
theorem c8_invalid_path_fatal (o : Oracles) (st : LangSAMState) (s : String)
    (p : String) (bt tt : ℚ) (output : Option String) (mult M : Nat) (rr : Bool)
    (h : o.fileExists (resolvePath o s) = false) :
    predict o st (ImageInput.path s) p bt tt output mult M rr =
      (st, [], Except.error (PredictErr.invalidPath (resolvePath o s))) ∧
    PEvent.dinoCall ∉ (predict o st (ImageInput.path s) p bt tt output mult M rr).2.1 ∧
    PEvent.samCall ∉ (predict o st (ImageInput.path s) p bt tt output mult M rr).2.1 := by
  have he : predict o st (ImageInput.path s) p bt tt output mult M rr =
      (st, [], Except.error (PredictErr.invalidPath (resolvePath o s))) := by
    simp [predict, h]
  refine ⟨he, ?_, ?_⟩ <;> rw [he] <;> simp

/-- Witness for C8: over an empty filesystem every path input is rejected
before any model call. -/
theorem c8_invalid_path_fatal_witness :
    noFsOracles.fileExists (resolvePath noFsOracles ("missing.tif")) = false ∧
    predict noFsOracles initState (ImageInput.path ("missing.tif")) ("cat")
        (1/2) (1/2) none 255 256 false =
      (initState, [],
       Except.error (PredictErr.invalidPath (resolvePath noFsOracles ("missing.tif")))) :=
  ⟨by rfl,
   (c8_invalid_path_fatal noFsOracles initState ("missing.tif") ("cat")
     (1/2) (1/2) none 255 256 false (by rfl)).1⟩

/-- C2: every successful predict() call that finds at least one detection
leaves masks, boxes, phrases and logits (the scores) populated with equal
lengths, aligned 1:1. -/
theorem c2_result_alignment (o : Oracles) (st : LangSAMState)
    (image : ImageInput) (p : String) (bt tt : ℚ) (output : Option String)
    (mult M : Nat) (rr : Bool) (pil : Img) (res : Option PredictResults)
    (hpil : loadedPil o image = some pil)
    (hne : o.dino pil p bt tt ≠ [])
    (hok : (predict o st image p bt tt output mult M rr).2.2 = Except.ok res) :
    ∃ ms bs ps ls,
      (predict o st image p bt tt output mult M rr).1.masks = some ms ∧
      (predict o st image p bt tt output mult M rr).1.boxes = some bs ∧
      (predict o st image p bt tt output mult M rr).1.phrases = some ps ∧
      (predict o st image p bt tt output mult M rr).1.logits = some ls ∧
      ms.length = bs.length ∧ bs.length = ps.length ∧ ps.length = ls.length := by
  cases image with
  | mem img =>
      simp only [loadedPil, Option.some.injEq] at hpil
      subst hpil
      simp only [predict] at hok
      rw [predictCore_none_pos _ _ _ _ _ _ _ _ _ _ hne] at hok
      simp at hok
  | path s =>
      by_cases hfe : o.fileExists (resolvePath o s)
      · simp only [loadedPil, hfe, if_true, Option.some.injEq] at hpil
        subst hpil
        simp only [predict, hfe, if_true]
        rw [predictCore_pos _ _ _ _ _ _ _ _ _ _ _ hne]
        refine ⟨predict_sam o (firstThree (o.readRaster (resolvePath o s)).data)
            (predict_dino o (firstThree (o.readRaster (resolvePath o s)).data) p bt tt).1,
          (predict_dino o (firstThree (o.readRaster (resolvePath o s)).data) p bt tt).1,
          (predict_dino o (firstThree (o.readRaster (resolvePath o s)).data) p bt tt).2.2,
          (predict_dino o (firstThree (o.readRaster (resolvePath o s)).data) p bt tt).2.1,
          by simp, by simp, by simp, by simp, ?_, ?_, ?_⟩
        · simp [predict_sam]
        · simp [predict_dino]
        · simp [predict_dino]
      · simp [loadedPil, hfe] at hpil

/-- Witness for C2: one detection for the prompt cat through a valid path
yields four aligned session fields. -/
theorem c2_result_alignment_witness :
    loadedPil testOracles (ImageInput.path ("a.tif")) = some [[[1, 1, 1]]] ∧
    testOracles.dino [[[1, 1, 1]]] ("cat") (1/2) (1/2) ≠ [] ∧
    (predict testOracles initState (ImageInput.path ("a.tif")) ("cat")
        (1/2) (1/2) none 255 256 false).2.2 = Except.ok none ∧
    (∃ ms bs ps ls,
      (predict testOracles initState (ImageInput.path ("a.tif")) ("cat")
          (1/2) (1/2) none 255 256 false).1.masks = some ms ∧
      (predict testOracles initState (ImageInput.path ("a.tif")) ("cat")
          (1/2) (1/2) none 255 256 false).1.boxes = some bs ∧
      (predict testOracles initState (ImageInput.path ("a.tif")) ("cat")
          (1/2) (1/2) none 255 256 false).1.phrases = some ps ∧
      (predict testOracles initState (ImageInput.path ("a.tif")) ("cat")
          (1/2) (1/2) none 255 256 false).1.logits = some ls ∧
      ms.length = bs.length ∧ bs.length = ps.length ∧ ps.length = ls.length) :=
  ⟨by rfl, by decide, by rfl,
   c2_result_alignment testOracles initState (ImageInput.path ("a.tif")) ("cat")
     (1/2) (1/2) none 255 256 false [[[1, 1, 1]]] none (by rfl) (by decide) (by rfl)⟩

/-- A predict() run that completed detection and segmentation and stored
its results: it returned (no exception) and did not take the zero-detection
early exit (whose message would be in the trace). -/
def fullSuccess (r : PredictRet) : Prop :=
  (∃ v, r.2.2 = Except.ok v) ∧
  PEvent.msg ("No objects found in the image.") ∉ r.2.1

/-- A session state with a previous source path recorded. -/
def stOld : LangSAMState := { initState with source := some ("old.tif") }

/-- Counterexample to C3: a zero-detection predict() call (not a successful
completion: it prints the message and returns None) still overwrites
self.source, so not every session-state field retains its prior value. -/
theorem c3_frame_counterexample :
    (predict testOracles stOld (ImageInput.path ("new.tif")) ("dog")
        (1/2) (1/2) none 255 256 false).2.2 = Except.ok none ∧
    PEvent.msg ("No objects found in the image.") ∈
      (predict testOracles stOld (ImageInput.path ("new.tif")) ("dog")
        (1/2) (1/2) none 255 256 false).2.1 ∧
    stOld.source = some ("old.tif") ∧
    (predict testOracles stOld (ImageInput.path ("new.tif")) ("dog")
        (1/2) (1/2) none 255 256 false).1.source = some ("new.tif") :=
  ⟨by rfl, by decide, by rfl, by decide⟩

/-- C3 as amended: on every predict() call that does not run to a fully
successful completion of detection plus segmentation, the result fields
masks, boxes, phrases, logits and prediction retain their prior values
(source and image, by contrast, are overwritten as soon as the input is
loaded, before detection). -/
theorem c3_frame_amended (o : Oracles) (st : LangSAMState)
    (image : ImageInput) (p : String) (bt tt : ℚ) (output : Option String)
    (mult M : Nat) (rr : Bool)
    (h : ¬ fullSuccess (predict o st image p bt tt output mult M rr)) :
    (predict o st image p bt tt output mult M rr).1.masks = st.masks ∧
    (predict o st image p bt tt output mult M rr).1.boxes = st.boxes ∧
    (predict o st image p bt tt output mult M rr).1.phrases = st.phrases ∧
    (predict o st image p bt tt output mult M rr).1.logits = st.logits ∧
    (predict o st image p bt tt output mult M rr).1.prediction = st.prediction := by
  cases image with
  | mem img =>
      cases hd : o.dino img p bt tt with
      | nil =>
          simp only [predict]
          rw [predictCore_zero _ _ _ _ _ _ _ _ _ _ _ hd]
          simp
      | cons d ds =>
          simp only [predict]
          rw [predictCore_none_pos _ _ _ _ _ _ _ _ _ _ (by simp [hd])]
          simp
  | path s =>
      by_cases hfe : o.fileExists (resolvePath o s)
      · cases hd : o.dino (firstThree (o.readRaster (resolvePath o s)).data) p bt tt with
        | nil =>
            simp only [predict, hfe, if_true]
            rw [predictCore_zero _ _ _ _ _ _ _ _ _ _ _ hd]
            simp
        | cons d ds =>
            exfalso
            apply h
            simp only [predict, hfe, if_true]
            rw [predictCore_pos _ _ _ _ _ _ _ _ _ _ _ (by simp [hd])]
            simp only [fullSuccess]
            refine ⟨⟨_, rfl⟩, ?_⟩
            cases output <;> simp
      · simp [predict, hfe]

/-- Witness for C3's amended theorem: a zero-detection call leaves the five
result fields at their prior values. -/
theorem c3_frame_amended_witness :
    (predict testOracles stOld (ImageInput.path ("new.tif")) ("dog")
        (1/2) (1/2) none 255 256 false).1.masks = stOld.masks ∧
    (predict testOracles stOld (ImageInput.path ("new.tif")) ("dog")
        (1/2) (1/2) none 255 256 false).1.boxes = stOld.boxes ∧
    (predict testOracles stOld (ImageInput.path ("new.tif")) ("dog")
        (1/2) (1/2) none 255 256 false).1.phrases = stOld.phrases ∧
    (predict testOracles stOld (ImageInput.path ("new.tif")) ("dog")
        (1/2) (1/2) none 255 256 false).1.logits = stOld.logits ∧
    (predict testOracles stOld (ImageInput.path ("new.tif")) ("dog")
        (1/2) (1/2) none 255 256 false).1.prediction = stOld.prediction :=
  c3_frame_amended testOracles stOld (ImageInput.path ("new.tif")) ("dog")
    (1/2) (1/2) none 255 256 false (fun hfs => hfs.2 (by decide))

/-- C5: the CLI never reaches the mask.tif write.  main() passes predict an
in-memory image with the default return_results=False: with at least one
detection predict raises the unbound-local error; with zero detections it
returns None, and the tuple unpack of that None raises.  Either way mainRun
ends in an error and no raster write event occurs. -/
theorem c5_cli_never_writes (o : Oracles) (ip p : String) (bt tt : ℚ) :
    (∃ e, (mainRun o ip p bt tt).2 = Except.error e) ∧
    ∀ q, PEvent.writeRaster q ∉ (mainRun o ip p bt tt).1 := by
  simp only [mainRun, predict]
  cases hd : o.dino (firstThree (o.readRaster ip).data) p bt tt with
  | nil =>
      rw [predictCore_zero _ _ _ _ _ _ _ _ _ _ _ hd]
      exact ⟨⟨MainErr.unpackNone, rfl⟩, fun q => by simp⟩
  | cons d ds =>
      rw [predictCore_none_pos _ _ _ _ _ _ _ _ _ _ (by simp [hd])]
      exact ⟨⟨MainErr.fromPredict (PredictErr.unboundLocal ("image_np")), rfl⟩,
        fun q => by simp⟩

/-- Every entry of the binarized overlay is either 0 or the multiplier. -/
theorem binarizeGrid_mem (mult : Nat) (ov : Overlay) :
    ∀ row ∈ binarizeGrid mult ov, ∀ v ∈ row, v = 0 ∨ v = mult := by
  intro row hrow v hv
  simp only [binarizeGrid, List.mem_map] at hrow
  obtain ⟨row0, -, rfl⟩ := hrow
  simp only [List.mem_map] at hv
  obtain ⟨v0, -, rfl⟩ := hv
  by_cases h : 0 < v0 <;> simp [h]

/-- C6: the compositor starts from all zeros and adds (mask greater than
zero) times (i plus 1) for each detection index i; with exactly masks 0 and
1 covering a common pixel, the accumulator holds 1 + 2 = 3 there before
binarization, and the binarized overlay holds the default multiplier 255
there afterward. -/
theorem c6_overlap_sums_labels (m0 m1 : Mask) (r c h w : Nat)
    (h0 : 0 < cell m0 r c) (h1 : 0 < cell m1 r c)
    (hr : r < h) (hc : c < w) :
    accPixel 256 [m0, m1] r c = 3 ∧
    cell (binarizeGrid 255 (maskOverlayRaw 256 h w [m0, m1])) r c = 255 := by
  have ha : accPixel 256 [m0, m1] r c = 3 := by
    simp [accPixel, List.enum, List.enumFrom, h0, h1]
  refine ⟨ha, ?_⟩
  rw [cell_overlay 256 255 h w [m0, m1] r c hr hc, ha]
  decide

/-- Witness for C6: two one-pixel masks both covering pixel (0, 0). -/
theorem c6_overlap_sums_labels_witness :
    0 < cell [[1]] 0 0 ∧ (0 : Nat) < 1 ∧
    accPixel 256 [[[1]], [[1]]] 0 0 = 3 ∧
    cell (binarizeGrid 255 (maskOverlayRaw 256 1 1 [[[1]], [[1]]])) 0 0 = 255 :=
  ⟨by decide, by decide,
   c6_overlap_sums_labels [[1]] [[1]] 0 0 1 1 (by decide) (by decide)
     (by decide) (by decide)⟩

/-- C7: after a successful prediction through a loadable path input,
self.prediction is exactly the binarization (accumulator greater than zero,
times the multiplier) of the accumulator raster, and every stored pixel
value is 0 or the multiplier (hence representable in the configured dtype
whenever the multiplier is). -/
theorem c7_prediction_is_binarized (o : Oracles) (st : LangSAMState)
    (image : ImageInput) (p : String) (bt tt : ℚ) (output : Option String)
    (mult M : Nat) (rr : Bool) (raster : Raster)
    (hra : loadedRaster o image = some raster)
    (hne : o.dino (firstThree raster.data) p bt tt ≠ []) :
    (predict o st image p bt tt output mult M rr).1.prediction =
      some (binarizeGrid mult (maskOverlayRaw M (imgH raster.data) (imgW raster.data)
        (predict_sam o (firstThree raster.data)
          (predict_dino o (firstThree raster.data) p bt tt).1))) ∧
    ∀ row ∈ binarizeGrid mult (maskOverlayRaw M (imgH raster.data) (imgW raster.data)
        (predict_sam o (firstThree raster.data)
          (predict_dino o (firstThree raster.data) p bt tt).1)),
      ∀ v ∈ row, v = 0 ∨ v = mult := by
  cases image with
  | mem img => simp [loadedRaster] at hra
  | path s =>
      by_cases hfe : o.fileExists (resolvePath o s)
      · simp only [loadedRaster, hfe, if_true, Option.some.injEq] at hra
        subst hra
        refine ⟨?_, binarizeGrid_mem _ _⟩
        simp only [predict, hfe, if_true]
        rw [predictCore_pos _ _ _ _ _ _ _ _ _ _ _ hne]
      · simp [loadedRaster, hfe] at hra

/-- Witness for C7 at a concrete input: the stored prediction of the
one-detection run is the binarized one-pixel overlay. -/
theorem c7_prediction_is_binarized_witness :
    loadedRaster testOracles (ImageInput.path ("a.tif")) = some testRaster ∧
    testOracles.dino (firstThree testRaster.data) ("cat") (1/2) (1/2) ≠ [] ∧
    (predict testOracles initState (ImageInput.path ("a.tif")) ("cat")
        (1/2) (1/2) none 255 256 false).1.prediction =
      some (binarizeGrid 255 (maskOverlayRaw 256 (imgH testRaster.data)
        (imgW testRaster.data)
        (predict_sam testOracles (firstThree testRaster.data)
          (predict_dino testOracles (firstThree testRaster.data) ("cat")
            (1/2) (1/2)).1))) :=
  ⟨by rfl, by decide,
   (c7_prediction_is_binarized testOracles initState (ImageInput.path ("a.tif"))
     ("cat") (1/2) (1/2) none 255 256 false testRaster (by rfl) (by decide)).1⟩

/-- The session state after a successful prediction (prompt cat) followed
by a zero-detection prediction (prompt dog) on the same orchestrator. -/
def staleState : LangSAMState :=
  (predict testOracles
    (predict testOracles initState (ImageInput.path ("a.tif")) ("cat")
      (1/2) (1/2) none 255 256 false).1
    (ImageInput.path ("a.tif")) ("dog") (1/2) (1/2) none 255 256 false).1

/-- Counterexample to C9: when the most recent prediction found zero
objects but an earlier one succeeded, show_anns() does not print a message
and does not return without rendering: it renders the stale overlay (and
its stale box) from the earlier prediction. -/
theorem c9_show_anns_counterexample :
    testOracles.dino [[[1, 1, 1]]] ("dog") (1/2) (1/2) = [] ∧
    (predict testOracles
        (predict testOracles initState (ImageInput.path ("a.tif")) ("cat")
          (1/2) (1/2) none 255 256 false).1
        (ImageInput.path ("a.tif")) ("dog") (1/2) (1/2) none 255 256 false).2.2 =
      Except.ok none ∧
    show_anns staleState true none = [PEvent.render, PEvent.boxDrawn, PEvent.render] :=
  ⟨by decide, by rfl, by decide⟩

/-- C9 as amended: show_anns() never raises; whenever no prediction has
ever completed successfully (self.prediction still unset, which covers both
a fresh session and sessions whose every prediction found zero objects), it
prints a user-visible message and returns without rendering or exporting.
A zero-detection prediction that follows an earlier successful one leaves
the earlier overlay in place, and show_anns renders that stale overlay. -/
theorem c9_show_anns_guard (st : LangSAMState) (ab : Bool)
    (output : Option String)
    (h : st.prediction = none) :
    show_anns st ab output = [PEvent.msg ("Please run predict() first.")] ∧
    PEvent.render ∉ show_anns st ab output ∧
    ∀ q, PEvent.saveFig q ∉ show_anns st ab output := by
  have he : show_anns st ab output = [PEvent.msg ("Please run predict() first.")] := by
    simp [show_anns, h]
  exact ⟨he, by rw [he]; simp, fun q => by rw [he]; simp⟩

/-- Witness for C9's amended theorem: a fresh session short-circuits with
the message. -/
theorem c9_show_anns_guard_witness :
    initState.prediction = none ∧
    show_anns initState true none = [PEvent.msg ("Please run predict() first.")] :=
  ⟨by rfl, (c9_show_anns_guard initState true none (by rfl)).1⟩

/-- An input on which the labels of the masks covering pixel (0, 0) sum to
256: of 255 one-pixel masks, exactly those with index 0 and index 254
(labels 1 and 255) cover the pixel. -/
def wrapMasks : List Mask :=
  (List.range 255).map (fun i => [[if i = 0 ∨ i = 254 then 1 else 0]])

set_option maxRecDepth 100000 in
/-- C10: the accumulator is held in the configured dtype (default unsigned
8-bit), so per-pixel label sums wrap modulo 256: with masks of labels 1 and
255 covering pixel (0, 0), the accumulator there is 0 and the pixel is
classified as background after binarization. -/
theorem c10_accumulator_wraps :
    0 < cell (wrapMasks.getD 0 []) 0 0 ∧
    0 < cell (wrapMasks.getD 254 []) 0 0 ∧
    accPixel 256 wrapMasks 0 0 = 0 ∧
    cell (binarizeGrid 255 (maskOverlayRaw 256 1 1 wrapMasks)) 0 0 = 0 := by
  decide
